import Mathlib

/-!
Shallow embedding of `src/practical_work_2_cnn/main.py`, a PyTorch
super-resolution training driver.  The orchestration logic (argument
validation, device selection, epoch loop, training loop, evaluation loop,
checkpoint writing) is transcribed faithfully; the external collaborators
(the network forward pass, the optimizer update, the per-batch MSE, `log10`)
are abstract function parameters, and batches are an abstract type.  Console
output and side effects are recorded as an event trace; Python exceptions
(`raise Exception`, `ZeroDivisionError`) are modelled with `Except`, and the
process exit code follows Python conventions (argparse error = 2, uncaught
exception = 1, normal completion = 0).
-/

namespace PracticalWork2

/-- Host capability flags: the results of `torch.cuda.is_available()` and
`torch.backends.mps.is_available()` on this machine. -/
structure Host where
  cuda_is_available : Bool
  mps_is_available : Bool
  deriving DecidableEq, Repr

/-- Parsed command-line options (`opt` in `main.py`, lines 13-35).
`upscale_factor` is the single required option; `none` models the user
omitting it, which argparse rejects before the script body runs.  All other
fields carry the argparse defaults. -/
structure Opt where
  upscale_factor : Option Int
  batch_size : Int := 64
  test_batch_size : Int := 10
  nb_epochs : Int := 2
  lr : ℚ := 1/100
  cuda : Bool := false
  mps : Bool := false
  threads : Int := 4
  seed : Int := 123
  deriving DecidableEq, Repr

/-- The resolved compute device (`main.py` lines 47-52). -/
inductive Device where
  | cpu
  | cuda
  | mps
  deriving DecidableEq, Repr

/-- Errors the script can raise: the two explicit `raise Exception` guards
(lines 39-42) and Python's `ZeroDivisionError` from `/` with a zero
denominator. -/
inductive RunError where
  | noGPU
  | mpsNotEnabled
  | zeroDivision
  deriving DecidableEq, Repr

/-- Observable events of a run: each `print` line of the script, plus the
individual operations performed on each batch (device transfer, gradient
reset, forward pass with its gradient-tracking mode, loss computation, loss
accumulation, backward pass, optimizer step). -/
inductive Event where
  | printOpt
  | loadingDatasets
  | buildingModel
  | moveToDevice
  | zeroGrad
  | forward (gradEnabled : Bool)
  | lossComputed (v : ℚ)
  | accumulate (v : ℚ)
  | backward
  | optimStep
  | batchLine (epoch : Int) (iteration total : Nat) (loss : ℚ)
  | epochLine (epoch : Int) (avg : ℚ)
  | psnrLine (avg : ℚ)
  | checkpointLine (path : String)
  deriving DecidableEq, Repr

/-- Python division: raises `ZeroDivisionError` when the denominator is zero,
otherwise divides. -/
def pythonDiv (a b : ℚ) : Except RunError ℚ :=
  if b = 0 then .error .zeroDivision else .ok (a / b)

/-- The validation guards of `main.py` lines 39-42: `--cuda` without an
available GPU, or an available mps accelerator without `--mps`, each raise. -/
def validateDevice (opt : Opt) (host : Host) : Except RunError Unit :=
  if opt.cuda && !host.cuda_is_available then .error .noGPU
  else if !opt.mps && host.mps_is_available then .error .mpsNotEnabled
  else .ok ()

/-- Line 45: `use_mps = opt.mps and torch.backends.mps.is_available()`. -/
def use_mps (opt : Opt) (host : Host) : Bool :=
  opt.mps && host.mps_is_available

/-- Lines 47-52: device resolution. -/
def device (opt : Opt) (host : Host) : Device :=
  if opt.cuda then .cuda
  else if use_mps opt host then .mps
  else .cpu

/-- Device choice as the specification words it (spec §8): `cuda` requested
→ GPU; else `mps` requested and the platform accelerator available → platform
accelerator; else CPU.  Stated separately from `device` so the code's
resolution can be compared against the spec's. -/
def deviceSpec (opt : Opt) (host : Host) : Device :=
  if opt.cuda then .cuda
  else if opt.mps && host.mps_is_available then .mps
  else .cpu

/-- One training batch (`main.py` lines 77-87): move to device, zero the
gradients, forward pass (gradient tracking on), MSE loss, accumulate the
scalar loss, backward pass, optimizer step, report the batch line.  `fwd`
gives the batch's loss for the current model, `upd` the optimizer-updated
model. -/
def trainBatch {M B : Type} (fwd : M → B → ℚ) (upd : M → B → M)
    (epoch : Int) (total iteration : Nat) (m : M) (b : B) :
    M × ℚ × List Event :=
  let loss := fwd m b
  (upd m b, loss,
    [.moveToDevice, .zeroGrad, .forward true, .lossComputed loss,
     .accumulate loss, .backward, .optimStep,
     .batchLine epoch iteration total loss])

/-- The `for iteration, batch in enumerate(training_data_loader, 1)` loop of
`train` (lines 76-87), threading the model, the running `epoch_loss`, and the
emitted events. -/
def trainLoop {M B : Type} (fwd : M → B → ℚ) (upd : M → B → M)
    (epoch : Int) (total : Nat) :
    Nat → M → ℚ → List B → M × ℚ × List Event
  | _, m, acc, [] => (m, acc, [])
  | iteration, m, acc, b :: bs =>
    let step := trainBatch fwd upd epoch total iteration m b
    let rest := trainLoop fwd upd epoch total (iteration + 1) step.1
      (acc + step.2.1) bs
    (rest.1, rest.2.1, step.2.2 ++ rest.2.2)

/-- Function `train(epoch)` (lines 74-91): run the batch loop from iteration 1
with `epoch_loss = 0`, then print the epoch summary with the average loss
`epoch_loss / len(training_data_loader)` — a Python division that raises when
the loader yields zero batches. -/
def train {M B : Type} (fwd : M → B → ℚ) (upd : M → B → M)
    (epoch : Int) (m : M) (batches : List B) :
    List Event × Except RunError M :=
  let r := trainLoop fwd upd epoch batches.length 1 m 0 batches
  match pythonDiv r.2.1 (batches.length : ℚ) with
  | .error e => (r.2.2, .error e)
  | .ok avg => (r.2.2 ++ [.epochLine epoch avg], .ok r.1)

/-- The `for batch in testing_data_loader` loop of `test` (lines 97-103):
move to device, forward pass with gradient tracking disabled, MSE loss,
`psnr = 10 * log10(1 / mse)` (Python division, raising on `mse = 0`),
accumulate into `avg_psnr`.  `tfwd` gives the batch's MSE for the model and
`log10` is the abstract logarithm from `math`. -/
def testLoop {M B : Type} (tfwd : M → B → ℚ) (log10 : ℚ → ℚ) (m : M) :
    ℚ → List B → List Event × Except RunError ℚ
  | acc, [] => ([], .ok acc)
  | acc, b :: bs =>
    let mse := tfwd m b
    let evs0 : List Event := [.moveToDevice, .forward false, .lossComputed mse]
    match pythonDiv 1 mse with
    | .error e => (evs0, .error e)
    | .ok inv =>
      let psnr := 10 * log10 inv
      let rest := testLoop tfwd log10 m (acc + psnr) bs
      (evs0 ++ [.accumulate psnr] ++ rest.1, rest.2)

/-- Function `test()` (lines 94-104): run the evaluation loop under `no_grad`,
then print the average PSNR `avg_psnr / len(testing_data_loader)` — again a
Python division that raises when the loader yields zero batches.  The model
is only read, never returned or updated. -/
def test {M B : Type} (tfwd : M → B → ℚ) (log10 : ℚ → ℚ) (m : M)
    (batches : List B) : List Event × Except RunError Unit :=
  let r := testLoop tfwd log10 m 0 batches
  match r.2 with
  | .error e => (r.1, .error e)
  | .ok total =>
    match pythonDiv total (batches.length : ℚ) with
    | .error e => (r.1, .error e)
    | .ok avg => (r.1 ++ [.psnrLine avg], .ok ())

/-- The checkpoint path `f"model_epoch_{epoch}.pth"` (line 108). -/
def modelOutPath (epoch : Int) : String :=
  "model_epoch_" ++ toString epoch ++ ".pth"

/-- Function `checkpoint(epoch)` (lines 107-110): serialize the current model to
`model_epoch_<epoch>.pth` and print the confirmation line.  The write is
recorded as a `(path, model)` pair. -/
def checkpoint {M : Type} (epoch : Int) (m : M) :
    List Event × (String × M) :=
  ([.checkpointLine (modelOutPath epoch)], (modelOutPath epoch, m))

/-- A list of `n` consecutive integers starting at `a`. -/
def pyRangeLen : Int → Nat → List Int
  | _, 0 => []
  | a, n + 1 => a :: pyRangeLen (a + 1) n

/-- Python `range(a, b)` over integers, as the list it iterates. -/
def pyRange (a b : Int) : List Int :=
  pyRangeLen a (b - a).toNat

/-- The main loop `for epoch in range(1, opt.nb_epochs + 1): train(epoch);
test()` (lines 113-115), over an explicit list of epoch numbers.  An
exception in `train` or `test` aborts the loop. -/
def epochLoop {M B : Type} (fwd : M → B → ℚ) (upd : M → B → M)
    (tfwd : M → B → ℚ) (log10 : ℚ → ℚ)
    (trainBatches : Int → List B) (testBatches : List B) :
    List Int → M → List Event × Except RunError M
  | [], m => ([], .ok m)
  | e :: es, m =>
    let tr := train fwd upd e m (trainBatches e)
    match tr.2 with
    | .error err => (tr.1, .error err)
    | .ok m' =>
      let te := test tfwd log10 m' testBatches
      match te.2 with
      | .error err => (tr.1 ++ te.1, .error err)
      | .ok _ =>
        let rest := epochLoop fwd upd tfwd log10 trainBatches testBatches es m'
        (tr.1 ++ te.1 ++ rest.1, rest.2)

/-- Outcome of a whole run: the process exit code, the event trace, and the
list of checkpoint files written (path and model snapshot). -/
structure RunResult (M : Type) where
  exitCode : Nat
  log : List Event
  saved : List (String × M)
  deriving DecidableEq

/-- The whole script, top to bottom: argparse (missing `--upscale_factor`
makes argparse exit with code 2 before anything is printed), `print(opt)`,
the device guards of lines 39-42 (an uncaught exception exits with code 1),
the dataset-loading and model-building log lines, the epoch loop, and the
single final `checkpoint(opt.nb_epochs)` call of line 117.  `m0` is the
freshly initialized model; the training sets may differ per epoch because
the training loader reshuffles. -/
def runMain {M B : Type} (opt : Opt) (host : Host)
    (fwd : M → B → ℚ) (upd : M → B → M) (tfwd : M → B → ℚ) (log10 : ℚ → ℚ)
    (trainBatches : Int → List B) (testBatches : List B) (m0 : M) :
    RunResult M :=
  match opt.upscale_factor with
  | none => ⟨2, [], []⟩
  | some _ =>
    match validateDevice opt host with
    | .error _ => ⟨1, [.printOpt], []⟩
    | .ok _ =>
      let pre : List Event := [.printOpt, .loadingDatasets, .buildingModel]
      let body := epochLoop fwd upd tfwd log10 trainBatches testBatches
        (pyRange 1 (opt.nb_epochs + 1)) m0
      match body.2 with
      | .error _ => ⟨1, pre ++ body.1, []⟩
      | .ok m' =>
        let ck := checkpoint opt.nb_epochs m'
        ⟨0, pre ++ body.1 ++ ck.1, [ck.2]⟩

/-- The per-batch loss values reported in a trace (the `Loss:` lines). -/
def batchLosses (evs : List Event) : List ℚ :=
  evs.filterMap fun ev =>
    match ev with
    | .batchLine _ _ _ l => some l
    | _ => none

/-- The epoch numbers of the epoch-summary lines in a trace. -/
def epochsReported (evs : List Event) : List Int :=
  evs.filterMap fun ev =>
    match ev with
    | .epochLine e _ => some e
    | _ => none

/-- The averaged-PSNR values reported in a trace. -/
def psnrReported (evs : List Event) : List ℚ :=
  evs.filterMap fun ev =>
    match ev with
    | .psnrLine a => some a
    | _ => none

/-- The checkpoint paths reported in a trace. -/
def checkpointsReported (evs : List Event) : List String :=
  evs.filterMap fun ev =>
    match ev with
    | .checkpointLine p => some p
    | _ => none

/-- The per-batch step sequence as the specification words it (spec §4.3):
for each batch in order — move to device, reset gradients, forward, MSE
loss, accumulate the loss, backward, optimizer step, report progress — with
iterations numbered from the given start and the model advanced by the
optimizer after each batch. -/
def trainTraceSpec {M B : Type} (fwd : M → B → ℚ) (upd : M → B → M)
    (epoch : Int) (total : Nat) : Nat → M → List B → List Event
  | _, _, [] => []
  | iteration, m, b :: bs =>
    [.moveToDevice, .zeroGrad, .forward true, .lossComputed (fwd m b),
     .accumulate (fwd m b), .backward, .optimStep,
     .batchLine epoch iteration total (fwd m b)]
      ++ trainTraceSpec fwd upd epoch total (iteration + 1) (upd m b) bs

/-- The model obtained by folding the optimizer update over every training
batch of every epoch, in order — pure training, no other parameter writes. -/
def trainedModel {M B : Type} (upd : M → B → M) (trainBatches : Int → List B)
    (epochs : List Int) (m0 : M) : M :=
  epochs.foldl (fun m e => (trainBatches e).foldl upd m) m0

/-- The per-batch loss values a training epoch observes: the loss of each
batch for the model as it stands when that batch is processed. -/
def lossesAlong {M B : Type} (fwd : M → B → ℚ) (upd : M → B → M) :
    M → List B → List ℚ
  | _, [] => []
  | m, b :: bs => fwd m b :: lossesAlong fwd upd (upd m b) bs

/-- The per-batch step sequence of the evaluation loop as the specification
words it (spec §4.4): for each batch in order — move to device, forward pass
without gradient tracking, MSE loss, accumulate `10 * log10(1 / mse)` — with
the model untouched throughout. -/
def testTraceSpec {M B : Type} (tfwd : M → B → ℚ) (log10 : ℚ → ℚ) (m : M) :
    List B → List Event
  | [] => []
  | b :: bs =>
    [.moveToDevice, .forward false, .lossComputed (tfwd m b),
     .accumulate (10 * log10 (1 / tfwd m b))]
      ++ testTraceSpec tfwd log10 m bs

/-! Helper lemmas. -/

theorem batchLosses_append (l1 l2 : List Event) :
    batchLosses (l1 ++ l2) = batchLosses l1 ++ batchLosses l2 := by
  simp [batchLosses]

theorem epochsReported_append (l1 l2 : List Event) :
    epochsReported (l1 ++ l2) = epochsReported l1 ++ epochsReported l2 := by
  simp [epochsReported]

theorem psnrReported_append (l1 l2 : List Event) :
    psnrReported (l1 ++ l2) = psnrReported l1 ++ psnrReported l2 := by
  simp [psnrReported]

theorem checkpointsReported_append (l1 l2 : List Event) :
    checkpointsReported (l1 ++ l2) =
      checkpointsReported l1 ++ checkpointsReported l2 := by
  simp [checkpointsReported]

theorem trainLoop_eq {M B : Type} (fwd : M → B → ℚ) (upd : M → B → M)
    (epoch : Int) (total : Nat) (bs : List B) :
    ∀ (iteration : Nat) (m : M) (acc : ℚ),
    trainLoop fwd upd epoch total iteration m acc bs =
      (bs.foldl upd m, acc + (lossesAlong fwd upd m bs).sum,
        trainTraceSpec fwd upd epoch total iteration m bs) := by
  induction bs with
  | nil => intro i m acc; simp [trainLoop, lossesAlong, trainTraceSpec]
  | cons b bs ih =>
    intro i m acc
    simp [trainLoop, trainBatch, lossesAlong, trainTraceSpec, ih, add_assoc]

theorem lossesAlong_length {M B : Type} (fwd : M → B → ℚ) (upd : M → B → M)
    (bs : List B) : ∀ m : M, (lossesAlong fwd upd m bs).length = bs.length := by
  induction bs with
  | nil => intro m; simp [lossesAlong]
  | cons b bs ih => intro m; simp [lossesAlong, ih]

theorem batchLosses_trainTraceSpec {M B : Type} (fwd : M → B → ℚ)
    (upd : M → B → M) (epoch : Int) (total : Nat) (bs : List B) :
    ∀ (iteration : Nat) (m : M),
    batchLosses (trainTraceSpec fwd upd epoch total iteration m bs) =
      lossesAlong fwd upd m bs := by
  induction bs with
  | nil => intro i m; simp [trainTraceSpec, lossesAlong, batchLosses]
  | cons b bs ih =>
    intro i m
    rw [trainTraceSpec, batchLosses_append, ih]
    simp [batchLosses, lossesAlong]

theorem epochsReported_trainTraceSpec {M B : Type} (fwd : M → B → ℚ)
    (upd : M → B → M) (epoch : Int) (total : Nat) (bs : List B) :
    ∀ (iteration : Nat) (m : M),
    epochsReported (trainTraceSpec fwd upd epoch total iteration m bs) = [] := by
  induction bs with
  | nil => intro i m; simp [trainTraceSpec, epochsReported]
  | cons b bs ih =>
    intro i m
    rw [trainTraceSpec, epochsReported_append, ih]
    simp [epochsReported]

theorem psnrReported_trainTraceSpec {M B : Type} (fwd : M → B → ℚ)
    (upd : M → B → M) (epoch : Int) (total : Nat) (bs : List B) :
    ∀ (iteration : Nat) (m : M),
    psnrReported (trainTraceSpec fwd upd epoch total iteration m bs) = [] := by
  induction bs with
  | nil => intro i m; simp [trainTraceSpec, psnrReported]
  | cons b bs ih =>
    intro i m
    rw [trainTraceSpec, psnrReported_append, ih]
    simp [psnrReported]

theorem checkpointsReported_trainTraceSpec {M B : Type} (fwd : M → B → ℚ)
    (upd : M → B → M) (epoch : Int) (total : Nat) (bs : List B) :
    ∀ (iteration : Nat) (m : M),
    checkpointsReported (trainTraceSpec fwd upd epoch total iteration m bs)
      = [] := by
  induction bs with
  | nil => intro i m; simp [trainTraceSpec, checkpointsReported]
  | cons b bs ih =>
    intro i m
    rw [trainTraceSpec, checkpointsReported_append, ih]
    simp [checkpointsReported]

theorem train_ok {M B : Type} (fwd : M → B → ℚ) (upd : M → B → M)
    (epoch : Int) (m : M) (batches : List B) (hne : batches ≠ []) :
    train fwd upd epoch m batches =
      (trainTraceSpec fwd upd epoch batches.length 1 m batches ++
        [.epochLine epoch
          ((lossesAlong fwd upd m batches).sum / (batches.length : ℚ))],
       .ok (batches.foldl upd m)) := by
  have hlen : (batches.length : ℚ) ≠ 0 := by
    simpa using hne
  simp [train, trainLoop_eq, pythonDiv, hlen]

theorem batchLosses_testTraceSpec {M B : Type} (tfwd : M → B → ℚ)
    (log10 : ℚ → ℚ) (m : M) (bs : List B) :
    batchLosses (testTraceSpec tfwd log10 m bs) = [] := by
  induction bs with
  | nil => simp [testTraceSpec, batchLosses]
  | cons b bs ih =>
    rw [testTraceSpec, batchLosses_append, ih]
    simp [batchLosses]

theorem epochsReported_testTraceSpec {M B : Type} (tfwd : M → B → ℚ)
    (log10 : ℚ → ℚ) (m : M) (bs : List B) :
    epochsReported (testTraceSpec tfwd log10 m bs) = [] := by
  induction bs with
  | nil => simp [testTraceSpec, epochsReported]
  | cons b bs ih =>
    rw [testTraceSpec, epochsReported_append, ih]
    simp [epochsReported]

theorem psnrReported_testTraceSpec {M B : Type} (tfwd : M → B → ℚ)
    (log10 : ℚ → ℚ) (m : M) (bs : List B) :
    psnrReported (testTraceSpec tfwd log10 m bs) = [] := by
  induction bs with
  | nil => simp [testTraceSpec, psnrReported]
  | cons b bs ih =>
    rw [testTraceSpec, psnrReported_append, ih]
    simp [psnrReported]

theorem checkpointsReported_testTraceSpec {M B : Type} (tfwd : M → B → ℚ)
    (log10 : ℚ → ℚ) (m : M) (bs : List B) :
    checkpointsReported (testTraceSpec tfwd log10 m bs) = [] := by
  induction bs with
  | nil => simp [testTraceSpec, checkpointsReported]
  | cons b bs ih =>
    rw [testTraceSpec, checkpointsReported_append, ih]
    simp [checkpointsReported]

theorem testLoop_ok_inv {M B : Type} (tfwd : M → B → ℚ) (log10 : ℚ → ℚ)
    (m : M) (bs : List B) :
    ∀ (acc : ℚ), (∃ t, (testLoop tfwd log10 m acc bs).2 = .ok t) →
    testLoop tfwd log10 m acc bs =
      (testTraceSpec tfwd log10 m bs,
       .ok (acc + (bs.map fun b => 10 * log10 (1 / tfwd m b)).sum)) := by
  induction bs with
  | nil => intro acc _; simp [testLoop, testTraceSpec]
  | cons b bs ih =>
    intro acc hok
    by_cases h : tfwd m b = 0
    · exfalso
      rcases hok with ⟨t, ht⟩
      simp [testLoop, pythonDiv, h] at ht
    · have hok' : ∃ t,
          (testLoop tfwd log10 m (acc + 10 * log10 (tfwd m b)⁻¹) bs).2
            = .ok t := by
        rcases hok with ⟨t, ht⟩
        simp [testLoop, pythonDiv, h] at ht
        exact ⟨t, ht⟩
      have := ih (acc + 10 * log10 (tfwd m b)⁻¹) hok'
      simp [testLoop, pythonDiv, h, one_div, this, testTraceSpec, add_assoc]

theorem testLoop_err {M B : Type} (tfwd : M → B → ℚ) (log10 : ℚ → ℚ)
    (m : M) (bs : List B) :
    ∀ (acc : ℚ), (∃ b ∈ bs, tfwd m b = 0) →
    (testLoop tfwd log10 m acc bs).2 = .error .zeroDivision := by
  induction bs with
  | nil => intro acc h; simp at h
  | cons b bs ih =>
    intro acc h
    by_cases hb : tfwd m b = 0
    · simp [testLoop, pythonDiv, hb]
    · rcases h with ⟨b', hb', hz⟩
      rcases List.mem_cons.mp hb' with rfl | hmem
      · exact absurd hz hb
      · simp [testLoop, pythonDiv, hb]
        exact ih _ ⟨b', hmem, hz⟩

theorem forward_true_not_mem_testLoop {M B : Type} (tfwd : M → B → ℚ)
    (log10 : ℚ → ℚ) (m : M) (bs : List B) :
    ∀ (acc : ℚ), Event.forward true ∉ (testLoop tfwd log10 m acc bs).1 := by
  induction bs with
  | nil => intro acc; simp [testLoop]
  | cons b bs ih =>
    intro acc
    by_cases hb : tfwd m b = 0
    · simp [testLoop, pythonDiv, hb]
    · simp [testLoop, pythonDiv, hb, ih]

theorem test_ok_inv {M B : Type} (tfwd : M → B → ℚ) (log10 : ℚ → ℚ)
    (m : M) (batches : List B)
    (h : (test tfwd log10 m batches).2 = .ok ()) :
    batches ≠ [] ∧
    test tfwd log10 m batches =
      (testTraceSpec tfwd log10 m batches ++
        [.psnrLine ((batches.map fun b => 10 * log10 (1 / tfwd m b)).sum /
          (batches.length : ℚ))],
       .ok ()) := by
  have hne : batches ≠ [] := by
    intro hnil
    subst hnil
    simp [test, testLoop, pythonDiv] at h
  have hlen : (batches.length : ℚ) ≠ 0 := by simpa using hne
  have hok : ∃ t, (testLoop tfwd log10 m 0 batches).2 = .ok t := by
    by_contra hno
    push_neg at hno
    rcases hr : (testLoop tfwd log10 m 0 batches).2 with e | t
    · simp [test, hr] at h
    · exact hno t hr
  have hshape := testLoop_ok_inv tfwd log10 m batches 0 hok
  refine ⟨hne, ?_⟩
  simp [test, hshape, pythonDiv, hlen]

theorem test_err {M B : Type} (tfwd : M → B → ℚ) (log10 : ℚ → ℚ)
    (m : M) (batches : List B) (h : ∃ b ∈ batches, tfwd m b = 0) :
    (test tfwd log10 m batches).2 = .error .zeroDivision := by
  have := testLoop_err tfwd log10 m batches 0 h
  simp [test, this]

theorem train_ok_inv {M B : Type} (fwd : M → B → ℚ) (upd : M → B → M)
    (epoch : Int) (m m' : M) (batches : List B)
    (h : (train fwd upd epoch m batches).2 = .ok m') :
    batches ≠ [] ∧ m' = batches.foldl upd m ∧
    train fwd upd epoch m batches =
      (trainTraceSpec fwd upd epoch batches.length 1 m batches ++
        [.epochLine epoch
          ((lossesAlong fwd upd m batches).sum / (batches.length : ℚ))],
       .ok (batches.foldl upd m)) := by
  have hne : batches ≠ [] := by
    intro hnil
    subst hnil
    simp [train, trainLoop, pythonDiv] at h
  have heq := train_ok fwd upd epoch m batches hne
  refine ⟨hne, ?_, heq⟩
  rw [heq] at h
  simpa using h.symm

theorem epochLoop_ok_inv {M B : Type} (fwd : M → B → ℚ) (upd : M → B → M)
    (tfwd : M → B → ℚ) (log10 : ℚ → ℚ)
    (trainBatches : Int → List B) (testBatches : List B) (es : List Int) :
    ∀ (m m' : M),
    (epochLoop fwd upd tfwd log10 trainBatches testBatches es m).2 = .ok m' →
    m' = trainedModel upd trainBatches es m ∧
    epochsReported
      (epochLoop fwd upd tfwd log10 trainBatches testBatches es m).1 = es ∧
    (psnrReported
      (epochLoop fwd upd tfwd log10 trainBatches testBatches es m).1).length
        = es.length ∧
    checkpointsReported
      (epochLoop fwd upd tfwd log10 trainBatches testBatches es m).1 = [] := by
  induction es with
  | nil =>
    intro m m' h
    simp [epochLoop] at h
    simp [epochLoop, trainedModel, epochsReported, psnrReported,
      checkpointsReported, h]
  | cons e es ih =>
    intro m m' h
    rcases htr : (train fwd upd e m (trainBatches e)).2 with err | m1
    · exfalso
      simp [epochLoop, htr] at h
    · rcases hte : (test tfwd log10 m1 testBatches).2 with err | u
      · exfalso
        simp [epochLoop, htr, hte] at h
      · cases u
        have h' : (epochLoop fwd upd tfwd log10 trainBatches testBatches
            es m1).2 = .ok m' := by
          simpa [epochLoop, htr, hte] using h
        obtain ⟨hne, hm1, htreq⟩ :=
          train_ok_inv fwd upd e m m1 (trainBatches e) htr
        obtain ⟨hne2, hteeq⟩ := test_ok_inv tfwd log10 m1 testBatches hte
        obtain ⟨hmod, heps, hpsnr, hck⟩ := ih m1 m' h'
        have hloop : epochLoop fwd upd tfwd log10 trainBatches testBatches
            (e :: es) m =
            ((train fwd upd e m (trainBatches e)).1 ++
              (test tfwd log10 m1 testBatches).1 ++
              (epochLoop fwd upd tfwd log10 trainBatches testBatches es m1).1,
             (epochLoop fwd upd tfwd log10 trainBatches testBatches
               es m1).2) := by
          simp [epochLoop, htr, hte]
        have htr1 : (train fwd upd e m (trainBatches e)).1 =
            trainTraceSpec fwd upd e (trainBatches e).length 1 m
              (trainBatches e) ++
            [.epochLine e ((lossesAlong fwd upd m (trainBatches e)).sum /
              ((trainBatches e).length : ℚ))] := by
          rw [htreq]
        have hte1 : (test tfwd log10 m1 testBatches).1 =
            testTraceSpec tfwd log10 m1 testBatches ++
            [.psnrLine ((testBatches.map
              fun b => 10 * log10 (1 / tfwd m1 b)).sum /
              (testBatches.length : ℚ))] := by
          rw [hteeq]
        refine ⟨?_, ?_, ?_, ?_⟩
        · rw [hmod, hm1]
          simp [trainedModel]
        · simp only [hloop, htr1, hte1, epochsReported_append,
            epochsReported_trainTraceSpec, epochsReported_testTraceSpec, heps]
          simp [epochsReported]
        · simp only [hloop, htr1, hte1, psnrReported_append,
            psnrReported_trainTraceSpec, psnrReported_testTraceSpec]
          simp [psnrReported]
          exact hpsnr
        · simp only [hloop, htr1, hte1, checkpointsReported_append,
            checkpointsReported_trainTraceSpec,
            checkpointsReported_testTraceSpec, hck]
          simp [checkpointsReported]

theorem runMain_ok_inv {M B : Type} (opt : Opt) (host : Host)
    (fwd : M → B → ℚ) (upd : M → B → M) (tfwd : M → B → ℚ) (log10 : ℚ → ℚ)
    (trainBatches : Int → List B) (testBatches : List B) (m0 : M)
    (h : (runMain opt host fwd upd tfwd log10 trainBatches testBatches
      m0).exitCode = 0) :
    ∃ u m', opt.upscale_factor = some u ∧
      validateDevice opt host = .ok () ∧
      (epochLoop fwd upd tfwd log10 trainBatches testBatches
        (pyRange 1 (opt.nb_epochs + 1)) m0).2 = .ok m' ∧
      runMain opt host fwd upd tfwd log10 trainBatches testBatches m0 =
        ⟨0, [Event.printOpt, Event.loadingDatasets, Event.buildingModel] ++
          (epochLoop fwd upd tfwd log10 trainBatches testBatches
            (pyRange 1 (opt.nb_epochs + 1)) m0).1 ++
          [Event.checkpointLine (modelOutPath opt.nb_epochs)],
         [(modelOutPath opt.nb_epochs, m')]⟩ := by
  rcases hu : opt.upscale_factor with _ | u
  · exfalso
    simp [runMain, hu] at h
  · rcases hv : validateDevice opt host with e | v
    · exfalso
      simp [runMain, hu, hv] at h
    · cases v
      rcases hb : (epochLoop fwd upd tfwd log10 trainBatches testBatches
          (pyRange 1 (opt.nb_epochs + 1)) m0).2 with err | m'
      · exfalso
        simp [runMain, hu, hv, hb] at h
      · refine ⟨u, m', rfl, rfl, rfl, ?_⟩
        simp [runMain, hu, hv, hb, checkpoint]

theorem pyRange_succ_left (a b : Int) (h : a < b) :
    pyRange a b = a :: pyRange (a + 1) b := by
  unfold pyRange
  have h1 : (b - a).toNat = (b - (a + 1)).toNat + 1 := by omega
  rw [h1]
  rfl

theorem testLoop_ok_of_nonzero {M B : Type} (tfwd : M → B → ℚ)
    (log10 : ℚ → ℚ) (m : M) (bs : List B) :
    ∀ (acc : ℚ), (∀ b ∈ bs, tfwd m b ≠ 0) →
    testLoop tfwd log10 m acc bs =
      (testTraceSpec tfwd log10 m bs,
       .ok (acc + (bs.map fun b => 10 * log10 (1 / tfwd m b)).sum)) := by
  induction bs with
  | nil => intro acc _; simp [testLoop, testTraceSpec]
  | cons b bs ih =>
    intro acc h
    have hb : tfwd m b ≠ 0 := h b (by simp)
    have ih' := ih (acc + 10 * log10 (tfwd m b)⁻¹)
      (fun b' hb' => h b' (by simp [hb']))
    simp [testLoop, pythonDiv, hb, one_div, ih', testTraceSpec, add_assoc]

/-! Claim theorems. -/

/-- C1: for every configuration that passes the device-validation guards,
the resolved compute device follows the spec's precedence — `cuda` requested
→ GPU; else `mps` requested and the platform accelerator available →
platform accelerator; else CPU — and is exactly one of the three devices. -/
theorem C1_device_resolution (opt : Opt) (host : Host)
    (h : validateDevice opt host = .ok ()) :
    device opt host = deviceSpec opt host ∧
    (device opt host = .cpu ∨ device opt host = .cuda ∨
      device opt host = .mps) := by
  constructor
  · rfl
  · cases hd : device opt host
    · exact Or.inl rfl
    · exact Or.inr (Or.inl rfl)
    · exact Or.inr (Or.inr rfl)

/-- C2: a missing `--upscale_factor`, `--cuda` without an available GPU, or
an available platform accelerator without `--mps`, each terminates the run
with a non-zero exit code and no dataset-loading log line. -/
theorem C2_invalid_config_fails_before_loading {M B : Type} (opt : Opt)
    (host : Host) (fwd : M → B → ℚ) (upd : M → B → M) (tfwd : M → B → ℚ)
    (log10 : ℚ → ℚ) (trainBatches : Int → List B) (testBatches : List B)
    (m0 : M)
    (h : opt.upscale_factor = none ∨
      (opt.cuda = true ∧ host.cuda_is_available = false) ∨
      (opt.mps = false ∧ host.mps_is_available = true)) :
    (runMain opt host fwd upd tfwd log10 trainBatches testBatches
      m0).exitCode ≠ 0 ∧
    Event.loadingDatasets ∉
      (runMain opt host fwd upd tfwd log10 trainBatches testBatches m0).log
      := by
  rcases h with h | h | h
  · simp [runMain, h]
  · rcases hu : opt.upscale_factor with _ | u
    · simp [runMain, hu]
    · have hv : validateDevice opt host = .error .noGPU := by
        simp [validateDevice, h.1, h.2]
      simp [runMain, hu, hv]
  · rcases hu : opt.upscale_factor with _ | u
    · simp [runMain, hu]
    · have hv : ∃ e, validateDevice opt host = .error e := by
        by_cases hc : (opt.cuda && !host.cuda_is_available) = true
        · exact ⟨.noGPU, by simp [validateDevice, hc]⟩
        · exact ⟨.mpsNotEnabled, by simp [validateDevice, hc, h.1, h.2]⟩
      rcases hv with ⟨e, hv⟩
      simp [runMain, hu, hv]

/-- C9: with an empty training loader the end-of-epoch average divides by a
batch count of zero and raises, and with an empty evaluation loader the
average-PSNR division likewise raises. -/
theorem C9_empty_loader_division_by_zero {M B : Type} (fwd : M → B → ℚ)
    (upd : M → B → M) (tfwd : M → B → ℚ) (log10 : ℚ → ℚ) (epoch : Int)
    (m : M) :
    (train fwd upd epoch m ([] : List B)).2 = .error .zeroDivision ∧
    (test tfwd log10 m ([] : List B)).2 = .error .zeroDivision := by
  constructor
  · simp [train, trainLoop, pythonDiv]
  · simp [test, testLoop, pythonDiv]

/-- C10: with `nb_epochs = 0` the epoch loop body never runs — no training
or evaluation events — yet the run still writes `model_epoch_0.pth`
containing the freshly initialized model and exits successfully. -/
theorem C10_zero_epochs_checkpoints_initial_model {M B : Type} (opt : Opt)
    (host : Host) (fwd : M → B → ℚ) (upd : M → B → M) (tfwd : M → B → ℚ)
    (log10 : ℚ → ℚ) (trainBatches : Int → List B) (testBatches : List B)
    (m0 : M) (u : Int)
    (hu : opt.upscale_factor = some u)
    (hv : validateDevice opt host = .ok ())
    (hN : opt.nb_epochs = 0) :
    runMain opt host fwd upd tfwd log10 trainBatches testBatches m0 =
      ⟨0, [Event.printOpt, Event.loadingDatasets, Event.buildingModel,
        Event.checkpointLine "model_epoch_0.pth"],
       [("model_epoch_0.pth", m0)]⟩ := by
  have hr0 : pyRange 1 ((0 : Int) + 1) = [] := by decide
  have hpath : modelOutPath 0 = "model_epoch_0.pth" := by decide
  simp [runMain, hu, hv, hN, hr0, epochLoop, checkpoint, hpath]

/-- C3: for every epoch with at least one training batch, the epoch-summary
line reports exactly the sum of the per-batch loss values observed in that
epoch's batch lines divided by their count, and that count equals the number
of batches. -/
theorem C3_avg_loss_is_mean_of_batch_losses {M B : Type} (fwd : M → B → ℚ)
    (upd : M → B → M) (epoch : Int) (m : M) (batches : List B)
    (hne : batches ≠ []) :
    train fwd upd epoch m batches =
      (trainTraceSpec fwd upd epoch batches.length 1 m batches ++
        [.epochLine epoch
          ((batchLosses (trainTraceSpec fwd upd epoch batches.length 1 m
            batches)).sum /
           ((batchLosses (trainTraceSpec fwd upd epoch batches.length 1 m
            batches)).length : ℚ))],
       .ok (batches.foldl upd m)) ∧
    (batchLosses (trainTraceSpec fwd upd epoch batches.length 1 m
      batches)).length = batches.length := by
  have hb := batchLosses_trainTraceSpec fwd upd epoch batches.length batches 1 m
  have hl := lossesAlong_length fwd upd batches m
  constructor
  · rw [hb, hl]
    exact train_ok fwd upd epoch m batches hne
  · rw [hb]
    exact hl

/-- C4: for an evaluation pass in which every batch has a non-zero MSE, the
reported average PSNR is exactly the arithmetic mean over the batches of
`10 * log10(1 / mse)`. -/
theorem C4_avg_psnr_is_mean_of_batch_psnr {M B : Type} (tfwd : M → B → ℚ)
    (log10 : ℚ → ℚ) (m : M) (batches : List B)
    (hne : batches ≠ []) (h : ∀ b ∈ batches, tfwd m b ≠ 0) :
    test tfwd log10 m batches =
      (testTraceSpec tfwd log10 m batches ++
        [.psnrLine ((batches.map fun b => 10 * log10 (1 / tfwd m b)).sum /
          (batches.length : ℚ))],
       .ok ()) := by
  have hl := testLoop_ok_of_nonzero tfwd log10 m batches 0 h
  have hlen : (batches.length : ℚ) ≠ 0 := by simpa using hne
  simp [test, hl, pythonDiv, hlen]

/-- C5: if a batch of the first evaluation pass has MSE exactly zero, the
PSNR computation's division raises `ZeroDivisionError`; the orchestration
does not catch it, so the run exits with code 1 and writes no checkpoint. -/
theorem C5_zero_mse_division_terminal {M B : Type} (opt : Opt) (host : Host)
    (fwd : M → B → ℚ) (upd : M → B → M) (tfwd : M → B → ℚ) (log10 : ℚ → ℚ)
    (trainBatches : Int → List B) (testBatches : List B) (m0 m1 : M)
    (u : Int)
    (hu : opt.upscale_factor = some u)
    (hv : validateDevice opt host = .ok ())
    (hN : 1 ≤ opt.nb_epochs)
    (hm1 : (train fwd upd 1 m0 (trainBatches 1)).2 = Except.ok m1)
    (hz : ∃ b ∈ testBatches, tfwd m1 b = 0) :
    (test tfwd log10 m1 testBatches).2 = .error .zeroDivision ∧
    (runMain opt host fwd upd tfwd log10 trainBatches testBatches
      m0).exitCode = 1 ∧
    (runMain opt host fwd upd tfwd log10 trainBatches testBatches
      m0).saved = [] := by
  have hterr := test_err tfwd log10 m1 testBatches hz
  have hcons : pyRange 1 (opt.nb_epochs + 1) =
      1 :: pyRange 2 (opt.nb_epochs + 1) :=
    pyRange_succ_left 1 (opt.nb_epochs + 1) (by omega)
  have hloop : (epochLoop fwd upd tfwd log10 trainBatches testBatches
      (pyRange 1 (opt.nb_epochs + 1)) m0).2 = .error .zeroDivision := by
    rw [hcons]
    simp [epochLoop, hm1, hterr]
  refine ⟨hterr, ?_, ?_⟩
  · rcases hb : (epochLoop fwd upd tfwd log10 trainBatches testBatches
        (pyRange 1 (opt.nb_epochs + 1)) m0).2 with e | mm
    · simp [runMain, hu, hv, hb]
    · rw [hb] at hloop
      exact absurd hloop (by simp)
  · rcases hb : (epochLoop fwd upd tfwd log10 trainBatches testBatches
        (pyRange 1 (opt.nb_epochs + 1)) m0).2 with e | mm
    · simp [runMain, hu, hv, hb]
    · rw [hb] at hloop
      exact absurd hloop (by simp)

/-- C6: in a run that completes successfully, the checkpoint writer runs
exactly once, its log line is the very last event (after the whole epoch
loop), no checkpoint line appears earlier, and the single file written is
`model_epoch_<N>.pth` with `N` the configured final epoch number. -/
theorem C6_checkpoint_once_after_last_epoch {M B : Type} (opt : Opt)
    (host : Host) (fwd : M → B → ℚ) (upd : M → B → M) (tfwd : M → B → ℚ)
    (log10 : ℚ → ℚ) (trainBatches : Int → List B) (testBatches : List B)
    (m0 : M)
    (h : (runMain opt host fwd upd tfwd log10 trainBatches testBatches
      m0).exitCode = 0) :
    modelOutPath opt.nb_epochs =
      "model_epoch_" ++ toString opt.nb_epochs ++ ".pth" ∧
    ∃ m' evs,
      runMain opt host fwd upd tfwd log10 trainBatches testBatches m0 =
        ⟨0, evs ++ [Event.checkpointLine (modelOutPath opt.nb_epochs)],
         [(modelOutPath opt.nb_epochs, m')]⟩ ∧
      checkpointsReported evs = [] := by
  obtain ⟨u, m', hu, hv, hb, heq⟩ := runMain_ok_inv opt host fwd upd tfwd
    log10 trainBatches testBatches m0 h
  obtain ⟨hmod, heps, hpsnr, hck⟩ := epochLoop_ok_inv fwd upd tfwd log10
    trainBatches testBatches (pyRange 1 (opt.nb_epochs + 1)) m0 m' hb
  refine ⟨rfl, m',
    [Event.printOpt, Event.loadingDatasets, Event.buildingModel] ++
      (epochLoop fwd upd tfwd log10 trainBatches testBatches
        (pyRange 1 (opt.nb_epochs + 1)) m0).1, ?_, ?_⟩
  · rw [heq]
  · rw [checkpointsReported_append, hck]
    simp [checkpointsReported]

/-- C7: in a run that completes successfully, the epoch-summary lines carry
the epoch numbers 1 through the configured epoch count, in order; and
within any epoch the batch loop's event trace is exactly, batch after
batch, the eight steps — move to device, reset gradients, forward pass,
MSE loss, accumulate the loss, backward pass, optimizer step, report the
batch line. -/
theorem C7_epoch_numbering_and_batch_step_order {M B : Type} (opt : Opt)
    (host : Host) (fwd : M → B → ℚ) (upd : M → B → M) (tfwd : M → B → ℚ)
    (log10 : ℚ → ℚ) (trainBatches : Int → List B) (testBatches : List B)
    (m0 : M)
    (h : (runMain opt host fwd upd tfwd log10 trainBatches testBatches
      m0).exitCode = 0) :
    epochsReported
      (runMain opt host fwd upd tfwd log10 trainBatches testBatches m0).log =
      pyRange 1 (opt.nb_epochs + 1) ∧
    ∀ (e : Int) (mm : M) (bs : List B),
      (trainLoop fwd upd e bs.length 1 mm 0 bs).2.2 =
        trainTraceSpec fwd upd e bs.length 1 mm bs := by
  obtain ⟨u, m', hu, hv, hb, heq⟩ := runMain_ok_inv opt host fwd upd tfwd
    log10 trainBatches testBatches m0 h
  obtain ⟨hmod, heps, hpsnr, hck⟩ := epochLoop_ok_inv fwd upd tfwd log10
    trainBatches testBatches (pyRange 1 (opt.nb_epochs + 1)) m0 m' hb
  constructor
  · simp only [heq]
    rw [epochsReported_append, epochsReported_append, heps]
    simp [epochsReported]
  · intro e mm bs
    rw [trainLoop_eq]

/-- C8: in a run that completes successfully, the evaluation loop reports
one averaged PSNR per training epoch, every forward pass it performs runs
with gradient tracking disabled, and the checkpointed model is exactly the
fold of the optimizer update over the training batches — evaluation changes
no parameter. -/
theorem C8_eval_no_grad_no_param_update {M B : Type} (opt : Opt)
    (host : Host) (fwd : M → B → ℚ) (upd : M → B → M) (tfwd : M → B → ℚ)
    (log10 : ℚ → ℚ) (trainBatches : Int → List B) (testBatches : List B)
    (m0 : M)
    (h : (runMain opt host fwd upd tfwd log10 trainBatches testBatches
      m0).exitCode = 0) :
    (psnrReported
      (runMain opt host fwd upd tfwd log10 trainBatches testBatches
        m0).log).length = (pyRange 1 (opt.nb_epochs + 1)).length ∧
    (∀ mm : M, Event.forward true ∉ (test tfwd log10 mm testBatches).1) ∧
    (runMain opt host fwd upd tfwd log10 trainBatches testBatches m0).saved =
      [(modelOutPath opt.nb_epochs,
        trainedModel upd trainBatches (pyRange 1 (opt.nb_epochs + 1)) m0)]
      := by
  obtain ⟨u, m', hu, hv, hb, heq⟩ := runMain_ok_inv opt host fwd upd tfwd
    log10 trainBatches testBatches m0 h
  obtain ⟨hmod, heps, hpsnr, hck⟩ := epochLoop_ok_inv fwd upd tfwd log10
    trainBatches testBatches (pyRange 1 (opt.nb_epochs + 1)) m0 m' hb
  refine ⟨?_, ?_, ?_⟩
  · simp only [heq]
    rw [psnrReported_append, psnrReported_append]
    have h1 : psnrReported
        [Event.printOpt, Event.loadingDatasets, Event.buildingModel] = [] := by
      simp [psnrReported]
    have h2 : psnrReported
        [Event.checkpointLine (modelOutPath opt.nb_epochs)] = [] := by
      simp [psnrReported]
    rw [h1, h2]
    simp [hpsnr]
  · intro mm
    rcases hr : (testLoop tfwd log10 mm 0 testBatches).2 with e | t
    · have hev : (test tfwd log10 mm testBatches).1 =
          (testLoop tfwd log10 mm 0 testBatches).1 := by
        simp [test, hr]
      rw [hev]
      exact forward_true_not_mem_testLoop tfwd log10 mm testBatches 0
    · by_cases hlen : ((testBatches.length : ℚ)) = 0
      · have hev : (test tfwd log10 mm testBatches).1 =
            (testLoop tfwd log10 mm 0 testBatches).1 := by
          simp [test, hr, pythonDiv, hlen]
        rw [hev]
        exact forward_true_not_mem_testLoop tfwd log10 mm testBatches 0
      · have hev : (test tfwd log10 mm testBatches).1 =
            (testLoop tfwd log10 mm 0 testBatches).1 ++
              [Event.psnrLine (t / (testBatches.length : ℚ))] := by
          simp [test, hr, pythonDiv, hlen]
        rw [hev]
        intro hmem
        rcases List.mem_append.mp hmem with hm | hm
        · exact forward_true_not_mem_testLoop tfwd log10 mm testBatches 0 hm
        · simp at hm
  · simp only [heq]
    rw [hmod]

/-! Concrete instantiations used by the witness theorems: a CPU-only host,
a batch type of bare naturals, and simple arithmetic collaborators. -/

def optW : Opt := ⟨some 3, 64, 10, 2, 1/100, false, false, 4, 123⟩

def optMissing : Opt := ⟨none, 64, 10, 2, 1/100, false, false, 4, 123⟩

def optOneEpoch : Opt := ⟨some 3, 64, 10, 1, 1/100, false, false, 4, 123⟩

def optZeroEpochs : Opt := ⟨some 3, 64, 10, 0, 1/100, false, false, 4, 123⟩

def hostW : Host := ⟨false, false⟩

def fwdW : Nat → Nat → ℚ := fun _ _ => 1

def updW : Nat → Nat → Nat := fun m b => m + b + 1

def tfwdW : Nat → Nat → ℚ := fun _ _ => 1

def tfwdZero : Nat → Nat → ℚ := fun _ _ => 0

def log10W : ℚ → ℚ := fun q => q

def trainBW : Int → List Nat := fun _ => [1, 2]

def testBW : List Nat := [1]

/-- Witness for C1 at a CPU-only host with neither flag set. -/
theorem C1_device_resolution_witness :
    validateDevice optW hostW = Except.ok () ∧
    (device optW hostW = deviceSpec optW hostW ∧
      (device optW hostW = .cpu ∨ device optW hostW = .cuda ∨
        device optW hostW = .mps)) :=
  ⟨rfl, C1_device_resolution optW hostW rfl⟩

/-- Witness for C2 with `--upscale_factor` omitted. -/
theorem C2_invalid_config_fails_before_loading_witness :
    (optMissing.upscale_factor = none ∨
      (optMissing.cuda = true ∧ hostW.cuda_is_available = false) ∨
      (optMissing.mps = false ∧ hostW.mps_is_available = true)) ∧
    ((@runMain Nat Nat optMissing hostW fwdW updW tfwdW log10W trainBW
      testBW 0).exitCode ≠ 0 ∧
     Event.loadingDatasets ∉
      (@runMain Nat Nat optMissing hostW fwdW updW tfwdW log10W trainBW
        testBW 0).log) :=
  ⟨Or.inl rfl, C2_invalid_config_fails_before_loading optMissing hostW fwdW
    updW tfwdW log10W trainBW testBW 0 (Or.inl rfl)⟩

/-- Witness for C3 on a two-batch epoch. -/
theorem C3_avg_loss_is_mean_of_batch_losses_witness :
    ([1, 2] : List Nat) ≠ [] ∧
    (train fwdW updW 1 0 [1, 2]).2 = Except.ok 5 := by
  refine ⟨by decide, ?_⟩
  rw [(C3_avg_loss_is_mean_of_batch_losses fwdW updW 1 0 [1, 2] (by decide)).1]
  rfl

/-- Witness for C4 on a one-batch evaluation pass with non-zero MSE. -/
theorem C4_avg_psnr_is_mean_of_batch_psnr_witness :
    testBW ≠ [] ∧ (∀ b ∈ testBW, tfwdW 0 b ≠ 0) ∧
    (test tfwdW log10W 0 testBW).2 = Except.ok () := by
  refine ⟨by decide, by decide, ?_⟩
  rw [C4_avg_psnr_is_mean_of_batch_psnr tfwdW log10W 0 testBW (by decide)
    (by decide)]

/-- Witness for C5: an evaluation MSE of zero aborts the run with exit code
1 and no checkpoint. -/
theorem C5_zero_mse_division_terminal_witness :
    (test tfwdZero log10W 5 testBW).2 = .error .zeroDivision ∧
    (@runMain Nat Nat optOneEpoch hostW fwdW updW tfwdZero log10W trainBW
      testBW 0).exitCode = 1 ∧
    (@runMain Nat Nat optOneEpoch hostW fwdW updW tfwdZero log10W trainBW
      testBW 0).saved = [] :=
  C5_zero_mse_division_terminal optOneEpoch hostW fwdW updW tfwdZero log10W
    trainBW testBW 0 5 3 rfl rfl (by decide) rfl (by decide)

/-- Witness for C6 on a successful two-epoch run. -/
theorem C6_checkpoint_once_after_last_epoch_witness :
    (@runMain Nat Nat optW hostW fwdW updW tfwdW log10W trainBW testBW
      0).exitCode = 0 ∧
    (modelOutPath optW.nb_epochs =
      "model_epoch_" ++ toString optW.nb_epochs ++ ".pth" ∧
     ∃ m' evs,
      @runMain Nat Nat optW hostW fwdW updW tfwdW log10W trainBW testBW 0 =
        ⟨0, evs ++ [Event.checkpointLine (modelOutPath optW.nb_epochs)],
         [(modelOutPath optW.nb_epochs, m')]⟩ ∧
      checkpointsReported evs = []) :=
  ⟨by decide, C6_checkpoint_once_after_last_epoch optW hostW fwdW updW tfwdW
    log10W trainBW testBW 0 (by decide)⟩

/-- Witness for C7 on a successful two-epoch run. -/
theorem C7_epoch_numbering_and_batch_step_order_witness :
    (@runMain Nat Nat optW hostW fwdW updW tfwdW log10W trainBW testBW
      0).exitCode = 0 ∧
    (epochsReported
      (@runMain Nat Nat optW hostW fwdW updW tfwdW log10W trainBW testBW
        0).log = pyRange 1 (optW.nb_epochs + 1) ∧
     ∀ (e : Int) (mm : Nat) (bs : List Nat),
      (trainLoop fwdW updW e bs.length 1 mm 0 bs).2.2 =
        trainTraceSpec fwdW updW e bs.length 1 mm bs) :=
  ⟨by decide, C7_epoch_numbering_and_batch_step_order optW hostW fwdW updW
    tfwdW log10W trainBW testBW 0 (by decide)⟩

/-- Witness for C8 on a successful two-epoch run. -/
theorem C8_eval_no_grad_no_param_update_witness :
    (@runMain Nat Nat optW hostW fwdW updW tfwdW log10W trainBW testBW
      0).exitCode = 0 ∧
    ((psnrReported
      (@runMain Nat Nat optW hostW fwdW updW tfwdW log10W trainBW testBW
        0).log).length = (pyRange 1 (optW.nb_epochs + 1)).length ∧
     (∀ mm : Nat, Event.forward true ∉ (test tfwdW log10W mm testBW).1) ∧
     (@runMain Nat Nat optW hostW fwdW updW tfwdW log10W trainBW testBW
       0).saved =
      [(modelOutPath optW.nb_epochs,
        trainedModel updW trainBW (pyRange 1 (optW.nb_epochs + 1)) 0)]) :=
  ⟨by decide, C8_eval_no_grad_no_param_update optW hostW fwdW updW tfwdW
    log10W trainBW testBW 0 (by decide)⟩

/-- Witness for C10 on a zero-epoch run. -/
theorem C10_zero_epochs_checkpoints_initial_model_witness :
    optZeroEpochs.upscale_factor = some 3 ∧
    validateDevice optZeroEpochs hostW = Except.ok () ∧
    optZeroEpochs.nb_epochs = 0 ∧
    @runMain Nat Nat optZeroEpochs hostW fwdW updW tfwdW log10W trainBW
      testBW 0 =
      ⟨0, [Event.printOpt, Event.loadingDatasets, Event.buildingModel,
        Event.checkpointLine "model_epoch_0.pth"],
       [("model_epoch_0.pth", 0)]⟩ :=
  ⟨rfl, rfl, rfl, C10_zero_epochs_checkpoints_initial_model optZeroEpochs
    hostW fwdW updW tfwdW log10W trainBW testBW 0 3 rfl rfl rfl⟩

end PracticalWork2
